import Mathlib

/-!
Shallow embedding of src/interactive_start_training.py.

The script is an interactive helper: model registry (MODELS), token
acquisition (get_api_token), dataset validation (validate_dataset), a
download supervisor with a 3-second poll loop and a 10800-second ceiling
(download_model), a training launcher (launch_training), and a top-level
orchestrator (main).  Interactive answers, filesystem state and external
process behaviour are passed in explicitly; observable side effects
(directory creation, existence checks, prompts, process spawn and kill)
are recorded as an event trace.
-/

/-- NETWORK_VOLUME is read from the environment with default /workspace;
we keep it as an explicit parameter nv. WORKING_DIR from line 28. -/
def WORKING_DIR (nv : String) : String := nv ++ "/diffusion-pipe-working-folder"

/-- One entry of the MODELS dict (lines 31-103).  Keys absent in the
Python dict become none / [] / false here. -/
structure ModelDesc where
  name : String
  mediaType : String
  hf_repo : String
  hf_files : List String
  local_dir : String
  toml : String
  training_script : Option String
  requires_token : Bool
  model_file : Option String
  special_download : Bool
deriving DecidableEq, Repr

def fluxModel (nv : String) : ModelDesc :=
  { name := "Flux", mediaType := "Image", hf_repo := "black-forest-labs/FLUX.1-dev",
    hf_files := [], local_dir := nv ++ "/models/flux", toml := "flux.toml",
    training_script := some "start_flux_training.sh", requires_token := true,
    model_file := some "flux1-dev.safetensors", special_download := false }

def sdxlModel (nv : String) : ModelDesc :=
  { name := "SDXL", mediaType := "Image", hf_repo := "timoshishi/sdXL_v10VAEFix",
    hf_files := ["sdXL_v10VAEFix.safetensors"], local_dir := nv ++ "/models",
    toml := "sdxl.toml", training_script := some "start_sdxl_training.sh",
    requires_token := false, model_file := some "sdXL_v10VAEFix.safetensors",
    special_download := false }

def wan13Model (nv : String) : ModelDesc :=
  { name := "Wan 1.3B", mediaType := "Video", hf_repo := "Wan-AI/Wan2.1-T2V-1.3B",
    hf_files := [], local_dir := nv ++ "/models/Wan/Wan2.1-T2V-1.3B",
    toml := "wan13_video.toml", training_script := some "start_wan_t2v_13b_training.sh",
    requires_token := false, model_file := some "diffusion_pytorch_model.safetensors",
    special_download := false }

def wan14bT2vModel (nv : String) : ModelDesc :=
  { name := "Wan 14B Text-To-Video", mediaType := "Video", hf_repo := "Wan-AI/Wan2.1-T2V-14B",
    hf_files := [], local_dir := nv ++ "/models/Wan/Wan2.1-T2V-14B",
    toml := "wan14b_t2v.toml", training_script := some "start_wan_t2v_14b_training.sh",
    requires_token := false, model_file := some "diffusion_pytorch_model.safetensors",
    special_download := false }

def wan14bI2vModel (nv : String) : ModelDesc :=
  { name := "Wan 14B Image-To-Video", mediaType := "Video",
    hf_repo := "Wan-AI/Wan2.1-I2V-14B-480P",
    hf_files := [], local_dir := nv ++ "/models/Wan/Wan2.1-I2V-14B-480P",
    toml := "wan14b_i2v.toml", training_script := some "start_wan_i2v_480p_training.sh",
    requires_token := false, model_file := some "diffusion_pytorch_model.safetensors",
    special_download := false }

def qwenModel (nv : String) : ModelDesc :=
  { name := "Qwen Image", mediaType := "Image", hf_repo := "Qwen/Qwen-Image",
    hf_files := [], local_dir := nv ++ "/models/Qwen-Image",
    toml := "qwen_toml.toml", training_script := none,
    requires_token := false, model_file := some "model.safetensors",
    special_download := false }

def zImageTurboModel (nv : String) : ModelDesc :=
  { name := "Z Image Turbo", mediaType := "Image", hf_repo := "Comfy-Org/z_image_turbo",
    hf_files := [], local_dir := nv ++ "/models/z_image",
    toml := "z_image_toml.toml", training_script := none,
    requires_token := false, model_file := none,
    special_download := true }

/-- The MODELS dict (lines 31-103), as an association list in the order
of the source. -/
def MODELS (nv : String) : List (String × ModelDesc) :=
  [("flux", fluxModel nv), ("sdxl", sdxlModel nv), ("wan13", wan13Model nv),
   ("wan14b_t2v", wan14bT2vModel nv), ("wan14b_i2v", wan14bI2vModel nv),
   ("qwen", qwenModel nv), ("z_image_turbo", zImageTurboModel nv)]

/-- MODELS[model_key] lookup. -/
def lookupModel (nv key : String) : Option ModelDesc :=
  (MODELS nv).lookup key

/-- Python truthiness of an optional string value obtained with .get:
None and the empty string are falsy. -/
def optStrTruthy : Option String → Bool
  | none => false
  | some s => !(s == "")

/-- Abstract filesystem: which paths exist, and directory listings. -/
structure FS where
  pathExists : String → Bool
  listdir : String → List String

/-! ## Download supervisor (download_model, lines 268-340) -/

def logsDirPath (nv : String) : String := nv ++ "/logs"

def logFilePath (nv : String) : String := nv ++ "/logs/model_download.log"

/-- Observable effects of download_model, in program order. -/
inductive DlEvent where
  | mkdir (path : String)
  | checkExists (path : String)
  | askSkip
  | openLog (path : String)
  | spawn
  | kill
deriving DecidableEq, Repr

/-- The environment of one download_model call: whether the expected
artifact file exists, the answer to the skip prompt, whether the logs
directory exists (open of the log file for writing raises iff it does
not, since open does not create directories), and the behaviour of the
spawned fetch process: fetchPolls = some n means the first n calls of
process.poll() return None and the call after them reports an exit;
none means the process never exits. -/
structure DlWorld where
  modelFileExists : Bool
  skipAnswer : Bool
  logsDirExists : Bool
  fetchPolls : Option Nat
  fetchExitCode : Int
deriving Repr

structure DlResult where
  ret : Option Bool
  events : List DlEvent
deriving Repr

/-- process.poll() is None at the k-th check. -/
def pollIsNone : Option Nat → Nat → Bool
  | none, _ => true
  | some n, k => k < n

inductive LoopOut where
  | exited
  | killed
deriving DecidableEq, Repr

/-- The polling loop of download_model (lines 313-332): while the
process is alive, sleep 3 and add 3 to elapsed; once elapsed reaches
the 10800 second (3 hour) ceiling, kill.  k is the index of the next
poll, elapsed the seconds accumulated so far. -/
def downloadLoop (polls : Option Nat) (k elapsed : Nat) : LoopOut :=
  if pollIsNone polls k then
    if 10800 ≤ elapsed + 3 then LoopOut.killed
    else downloadLoop polls (k + 1) (elapsed + 3)
  else LoopOut.exited
termination_by 10800 - elapsed
decreasing_by simp_wf; omega

/-- The huggingface-cli command line (lines 294-301). -/
def buildCmd (m : ModelDesc) (token : Option String) : List String :=
  ["huggingface-cli", "download", m.hf_repo, "--local-dir", m.local_dir]
    ++ m.hf_files
    ++ (match token with
        | some t => if t == "" then [] else ["--token", t]
        | none => [])

/-- download_model after the skip short-circuit (lines 293-340): open
the log file (raises if the logs directory is absent), spawn the fetch
process, run the polling loop, then interpret the exit code. -/
def dlAfterSkip (nv : String) (m : ModelDesc) (token : Option String) (w : DlWorld)
    (ev : List DlEvent) : DlResult :=
  let _cmd := buildCmd m token
  let ev2 := ev ++ [DlEvent.openLog (logFilePath nv)]
  if w.logsDirExists then
    let ev3 := ev2 ++ [DlEvent.spawn]
    match downloadLoop w.fetchPolls 0 0 with
    | LoopOut.killed => { ret := some false, events := ev3 ++ [DlEvent.kill] }
    | LoopOut.exited => { ret := some (w.fetchExitCode == 0), events := ev3 }
  else { ret := none, events := ev2 }

/-- download_model (lines 268-340).  ret = none means an exception
escaped (log file could not be opened); some b is the returned bool. -/
def download_model (nv : String) (m : ModelDesc) (token : Option String)
    (w : DlWorld) : DlResult :=
  let ev := [DlEvent.mkdir m.local_dir]
  if optStrTruthy m.model_file then
    let mp := m.local_dir ++ "/" ++ m.model_file.getD ""
    let ev2 := ev ++ [DlEvent.checkExists mp]
    if w.modelFileExists then
      let ev3 := ev2 ++ [DlEvent.askSkip]
      if w.skipAnswer then { ret := some true, events := ev3 }
      else dlAfterSkip nv m token w ev3
    else dlAfterSkip nv m token w ev2
  else dlAfterSkip nv m token w ev

/-- The skip short-circuit is taken: a declared, existing artifact file
and an affirmative answer to the skip prompt. -/
def skipTaken (m : ModelDesc) (w : DlWorld) : Bool :=
  optStrTruthy m.model_file && w.modelFileExists && w.skipAnswer

/-! ## Token acquisition (get_api_token, lines 154-180) -/

inductive TokenResult where
  | noToken
  | fromEnv (t : String)
  | fromPrompt (t : String)
  | exitEmpty
deriving DecidableEq, Repr

/-- The pre-set HUGGING_FACE_TOKEN environment value counts as set:
present, non-empty (Python truthiness) and not the placeholder. -/
def tokenTruthySet : Option String → Bool
  | none => false
  | some t => !(t == "") && !(t == "token_here")

/-- get_api_token (lines 154-180).  envTok is os.environ.get of
HUGGING_FACE_TOKEN, promptInput the interactively entered token.
exitEmpty models sys.exit(1) on an empty entered token. -/
def get_api_token (m : ModelDesc) (envTok : Option String) (promptInput : String) :
    TokenResult :=
  if !m.requires_token then TokenResult.noToken
  else if tokenTruthySet envTok then TokenResult.fromEnv (envTok.getD "")
  else if promptInput == "" then TokenResult.exitEmpty
  else TokenResult.fromPrompt promptInput

/-! ## Dataset validation (validate_dataset, lines 221-265) -/

def imageDir (nv : String) : String := nv ++ "/image_dataset_here"

def videoDir (nv : String) : String := nv ++ "/video_dataset_here"

/-- f.lower().endswith with the image suffixes .jpg .jpeg .png -/
def isImageFile (f : String) : Bool :=
  f.toLower.endsWith ".jpg" || f.toLower.endsWith ".jpeg" || f.toLower.endsWith ".png"

/-- f.lower().endswith with the video suffixes .mp4 .avi .mov -/
def isVideoFile (f : String) : Bool :=
  f.toLower.endsWith ".mp4" || f.toLower.endsWith ".avi" || f.toLower.endsWith ".mov"

/-- Outcome of inspecting one dataset folder; checked lists the
directories whose existence was tested, listed those passed to
os.listdir. -/
structure ScanResult where
  issues : List String
  checked : List String
  listed : List String
  count : Option Nat
deriving DecidableEq, Repr

/-- One branch of validate_dataset (lines 233-242 and 245-254). -/
def scanFolder (fs : FS) (dir : String) (matchFile : String → Bool)
    (missingMsg emptyMsg : String) : ScanResult :=
  if fs.pathExists dir then
    let files := (fs.listdir dir).filter matchFile
    if files.length == 0 then
      { issues := [emptyMsg], checked := [dir], listed := [dir], count := none }
    else
      { issues := [], checked := [dir], listed := [dir], count := some files.length }
  else
    { issues := [missingMsg], checked := [dir], listed := [], count := none }

structure ValidateOut where
  issues : List String
  checked : List String
  listed : List String
  imageCount : Option Nat
  videoCount : Option Nat
  exitCode : Option Nat
  returned : Bool
deriving DecidableEq, Repr

/-- validate_dataset (lines 221-265).  continueAnyway is the answer to
the Continue anyway? prompt; sys.exit(0) on decline is exitCode =
some 0. -/
def validate_dataset (nv caption_mode : String) (fs : FS) (continueAnyway : Bool) :
    ValidateOut :=
  let idir := imageDir nv
  let vdir := videoDir nv
  let ri :=
    if caption_mode == "images" || caption_mode == "both" then
      scanFolder fs idir isImageFile
        ("Image dataset folder not found: " ++ idir) ("No images found in: " ++ idir)
    else { issues := [], checked := [], listed := [], count := none }
  let rv :=
    if caption_mode == "videos" || caption_mode == "both" then
      scanFolder fs vdir isVideoFile
        ("Video dataset folder not found: " ++ vdir) ("No videos found in: " ++ vdir)
    else { issues := [], checked := [], listed := [], count := none }
  let issues := ri.issues ++ rv.issues
  { issues := issues
    checked := ri.checked ++ rv.checked
    listed := ri.listed ++ rv.listed
    imageCount := ri.count
    videoCount := rv.count
    exitCode := if issues.isEmpty then none
                else if continueAnyway then none else some 0
    returned := issues.isEmpty || continueAnyway }

/-! ## Training launcher (launch_training, lines 343-411) -/

def diffusionPipeDir (nv : String) : String := WORKING_DIR nv ++ "/diffusion_pipe"

def scriptPath (nv s : String) : String := WORKING_DIR nv ++ "/training_scripts/" ++ s

/-- What launch_training did: exitCode = some c models sys.exit(c);
ranScript / ranInline say which dispatch path ran the training
process; slept10 is the 10 second grace sleep for qwen and
z_image_turbo; banner is the final Training completed! print.  The
exit status of the training subprocess is an input (trainExitCode)
that the source never inspects. -/
structure LaunchOut where
  exitCode : Option Nat
  ranScript : Option String
  ranInline : Bool
  slept10 : Bool
  banner : Bool
deriving DecidableEq, Repr

/-- launch_training (lines 343-411); none for a key outside MODELS. -/
def launch_training (nv key : String) (fs : FS) (trainExitCode : Int) :
    Option LaunchOut :=
  match lookupModel nv key with
  | none => none
  | some m =>
    if fs.pathExists (diffusionPipeDir nv) then
      let slept := key == "qwen" || key == "z_image_turbo"
      let _ignored := trainExitCode
      if optStrTruthy m.training_script then
        let sp := scriptPath nv (m.training_script.getD "")
        if fs.pathExists sp then
          some { exitCode := none, ranScript := some sp, ranInline := false,
                 slept10 := slept, banner := true }
        else
          some { exitCode := some 1, ranScript := none, ranInline := false,
                 slept10 := slept, banner := false }
      else
        some { exitCode := none, ranScript := none, ranInline := true,
               slept10 := slept, banner := true }
    else
      some { exitCode := some 1, ranScript := none, ranInline := false,
             slept10 := false, banner := false }

/-! ## Top-level orchestration (main, lines 414-468)

Each interactive or blocking step can be interrupted (KeyboardInterrupt)
or raise an unexpected exception; an Evt per step says which.  main
wraps the whole body in try/except: KeyboardInterrupt maps to
sys.exit(0), any other Exception to sys.exit(1); sys.exit inside the
body raises SystemExit, which neither handler catches, so its code is
the process exit code. -/

inductive Evt where
  | ok
  | interrupt
  | exn
deriving DecidableEq, Repr

inductive BodyResult where
  | exited (code : Nat)
  | interrupted
  | raised
  | done
deriving DecidableEq, Repr

structure MainOut where
  result : BodyResult
  dlSpawned : Bool
  launched : Bool
deriving DecidableEq, Repr

/-- The whole session environment. -/
structure MainWorld where
  evtMenu : Evt
  menuChoice : String
  evtToken : Evt
  envToken : Option String
  tokenInput : String
  evtCaption : Evt
  captionMode : String
  evtValidate : Evt
  fs : FS
  valContinue : Bool
  evtConfirm : Evt
  confirmStart : Bool
  evtDownload : Evt
  dlw : DlWorld
  evtLaunch : Evt
  trainExitCode : Int

/-- The token value main passes on to download_model: the return value
of get_api_token (None when no token is involved). -/
def tokenValue : TokenResult → Option String
  | TokenResult.fromEnv t => some t
  | TokenResult.fromPrompt t => some t
  | TokenResult.noToken => none
  | TokenResult.exitEmpty => none

/-- Final step: launch_training (line 457) and fall-through. -/
def mainFromLaunch (nv : String) (w : MainWorld) (sp : Bool) : MainOut :=
  match w.evtLaunch with
  | Evt.interrupt => { result := BodyResult.interrupted, dlSpawned := sp, launched := false }
  | Evt.exn => { result := BodyResult.raised, dlSpawned := sp, launched := false }
  | Evt.ok =>
    match launch_training nv w.menuChoice w.fs w.trainExitCode with
    | none => { result := BodyResult.raised, dlSpawned := sp, launched := false }
    | some lo =>
      match lo.exitCode with
      | some c => { result := BodyResult.exited c, dlSpawned := sp, launched := false }
      | none => { result := BodyResult.done, dlSpawned := sp, launched := true }

/-- Download step (lines 452-454): a False return aborts with
sys.exit(1); an escaped exception propagates. -/
def mainFromDownload (nv : String) (w : MainWorld) (m : ModelDesc)
    (token : Option String) : MainOut :=
  match w.evtDownload with
  | Evt.interrupt => { result := BodyResult.interrupted, dlSpawned := false, launched := false }
  | Evt.exn => { result := BodyResult.raised, dlSpawned := false, launched := false }
  | Evt.ok =>
    let d := download_model nv m token w.dlw
    let sp := d.events.contains DlEvent.spawn
    match d.ret with
    | none => { result := BodyResult.raised, dlSpawned := sp, launched := false }
    | some false => { result := BodyResult.exited 1, dlSpawned := sp, launched := false }
    | some true => mainFromLaunch nv w sp

/-- Confirmation gate (lines 447-449): declining is sys.exit(0). -/
def mainFromConfirm (nv : String) (w : MainWorld) (m : ModelDesc)
    (token : Option String) : MainOut :=
  match w.evtConfirm with
  | Evt.interrupt => { result := BodyResult.interrupted, dlSpawned := false, launched := false }
  | Evt.exn => { result := BodyResult.raised, dlSpawned := false, launched := false }
  | Evt.ok =>
    if w.confirmStart then mainFromDownload nv w m token
    else { result := BodyResult.exited 0, dlSpawned := false, launched := false }

/-- Dataset validation step (line 434). -/
def mainFromValidate (nv : String) (w : MainWorld) (m : ModelDesc)
    (token : Option String) : MainOut :=
  match w.evtValidate with
  | Evt.interrupt => { result := BodyResult.interrupted, dlSpawned := false, launched := false }
  | Evt.exn => { result := BodyResult.raised, dlSpawned := false, launched := false }
  | Evt.ok =>
    match (validate_dataset nv w.captionMode w.fs w.valContinue).exitCode with
    | some c => { result := BodyResult.exited c, dlSpawned := false, launched := false }
    | none => mainFromConfirm nv w m token

/-- Caption mode selection (line 431). -/
def mainFromCaption (nv : String) (w : MainWorld) (m : ModelDesc)
    (token : Option String) : MainOut :=
  match w.evtCaption with
  | Evt.interrupt => { result := BodyResult.interrupted, dlSpawned := false, launched := false }
  | Evt.exn => { result := BodyResult.raised, dlSpawned := false, launched := false }
  | Evt.ok => mainFromValidate nv w m token

/-- Token acquisition step (line 428): an empty entered token is
sys.exit(1). -/
def mainFromToken (nv : String) (w : MainWorld) (m : ModelDesc) : MainOut :=
  match w.evtToken with
  | Evt.interrupt => { result := BodyResult.interrupted, dlSpawned := false, launched := false }
  | Evt.exn => { result := BodyResult.raised, dlSpawned := false, launched := false }
  | Evt.ok =>
    match get_api_token m w.envToken w.tokenInput with
    | TokenResult.exitEmpty => { result := BodyResult.exited 1, dlSpawned := false, launched := false }
    | tr => mainFromCaption nv w m (tokenValue tr)

/-- The body of main (lines 416-457) with its try protection. -/
def mainRun (nv : String) (w : MainWorld) : MainOut :=
  match w.evtMenu with
  | Evt.interrupt => { result := BodyResult.interrupted, dlSpawned := false, launched := false }
  | Evt.exn => { result := BodyResult.raised, dlSpawned := false, launched := false }
  | Evt.ok =>
    match lookupModel nv w.menuChoice with
    | none => { result := BodyResult.raised, dlSpawned := false, launched := false }
    | some m => mainFromToken nv w m

/-- The process exit code after the top-level handlers (lines 459-468):
KeyboardInterrupt exits 0, other exceptions exit 1, SystemExit keeps
its code, normal completion exits 0. -/
def mainExit (nv : String) (w : MainWorld) : Nat :=
  match (mainRun nv w).result with
  | BodyResult.exited c => c
  | BodyResult.interrupted => 0
  | BodyResult.raised => 1
  | BodyResult.done => 0

/-! ## Helper lemmas -/

theorem downloadLoop_unfold (polls : Option Nat) (k elapsed : Nat) :
    downloadLoop polls k elapsed =
      if pollIsNone polls k then
        if 10800 ≤ elapsed + 3 then LoopOut.killed
        else downloadLoop polls (k + 1) (elapsed + 3)
      else LoopOut.exited := by
  rw [downloadLoop]

/-- A process that never exits is killed when elapsed reaches the
ceiling. -/
theorem downloadLoop_none_aux :
    ∀ fuel k elapsed, 10800 - elapsed ≤ 3 * fuel →
      downloadLoop none k elapsed = LoopOut.killed := by
  intro fuel
  induction fuel with
  | zero =>
    intro k elapsed h
    rw [downloadLoop_unfold]
    simp only [pollIsNone, if_true]
    have : 10800 ≤ elapsed + 3 := by omega
    simp [this]
  | succ f ih =>
    intro k elapsed h
    rw [downloadLoop_unfold]
    simp only [pollIsNone, if_true]
    by_cases hb : 10800 ≤ elapsed + 3
    · simp [hb]
    · simp only [hb, if_false]
      exact ih (k + 1) (elapsed + 3) (by omega)

theorem downloadLoop_none : downloadLoop none 0 0 = LoopOut.killed :=
  downloadLoop_none_aux 3600 0 0 (by omega)

/-- A process whose first non-None poll would come at index n with
3600 ≤ n is killed first: the ceiling is reached at the 3600th tick. -/
theorem downloadLoop_late_aux (n : Nat) (hn : 3600 ≤ n) :
    ∀ fuel k, k ≤ 3599 → 3599 - k ≤ fuel →
      downloadLoop (some n) k (3 * k) = LoopOut.killed := by
  intro fuel
  induction fuel with
  | zero =>
    intro k hk h
    have hk' : k = 3599 := by omega
    subst hk'
    rw [downloadLoop_unfold]
    have hp : pollIsNone (some n) 3599 = true := by
      simp [pollIsNone]; omega
    rw [hp]
    norm_num
  | succ f ih =>
    intro k hk h
    rw [downloadLoop_unfold]
    have hp : pollIsNone (some n) k = true := by
      simp [pollIsNone]; omega
    rw [hp]
    by_cases hb : 10800 ≤ 3 * k + 3
    · simp [hb]
    · simp only [hb, if_false, if_true]
      have h3 : 3 * k + 3 = 3 * (k + 1) := by ring
      rw [h3]
      exact ih (k + 1) (by omega) (by omega)

theorem downloadLoop_late (n : Nat) (hn : 3600 ≤ n) :
    downloadLoop (some n) 0 0 = LoopOut.killed := by
  have := downloadLoop_late_aux n hn 3599 0 (by omega) (by omega)
  simpa using this

/-- A process that exits before the ceiling (first non-None poll at
index n < 3600) makes the loop end in exited. -/
theorem downloadLoop_early_aux (n : Nat) (hn : n < 3600) :
    ∀ fuel k, k ≤ n → n - k ≤ fuel →
      downloadLoop (some n) k (3 * k) = LoopOut.exited := by
  intro fuel
  induction fuel with
  | zero =>
    intro k hk h
    have hk' : k = n := by omega
    rw [downloadLoop_unfold]
    have hp : pollIsNone (some n) k = false := by
      simp [pollIsNone]; omega
    rw [hp]
    simp
  | succ f ih =>
    intro k hk h
    by_cases hkn : k = n
    · rw [downloadLoop_unfold]
      have hp : pollIsNone (some n) k = false := by
        simp [pollIsNone]; omega
      rw [hp]
      simp
    · rw [downloadLoop_unfold]
      have hp : pollIsNone (some n) k = true := by
        simp [pollIsNone]; omega
      rw [hp]
      have hb : ¬ 10800 ≤ 3 * k + 3 := by omega
      simp only [hb, if_false, if_true]
      have h3 : 3 * k + 3 = 3 * (k + 1) := by ring
      rw [h3]
      exact ih (k + 1) (by omega) (by omega)

theorem downloadLoop_early (n : Nat) (hn : n < 3600) :
    downloadLoop (some n) 0 0 = LoopOut.exited := by
  have := downloadLoop_early_aux n hn n 0 (by omega) (by omega)
  simpa using this

/-- When the skip short-circuit is not taken, download_model continues
into dlAfterSkip with a prefix of events that contains the mkdir of the
destination directory and no spawn, kill, openLog or foreign mkdir. -/
theorem download_model_not_skipped (nv : String) (m : ModelDesc) (token : Option String)
    (w : DlWorld) (h : skipTaken m w = false) :
    ∃ pre, download_model nv m token w = dlAfterSkip nv m token w pre
      ∧ DlEvent.spawn ∉ pre ∧ DlEvent.kill ∉ pre
      ∧ (∀ p, DlEvent.openLog p ∉ pre)
      ∧ DlEvent.mkdir m.local_dir ∈ pre
      ∧ (∀ p, DlEvent.mkdir p ∈ pre → p = m.local_dir) := by
  unfold download_model
  cases hmf : optStrTruthy m.model_file with
  | false =>
    simp only [hmf, Bool.false_eq_true, if_false]
    exact ⟨[DlEvent.mkdir m.local_dir], rfl, by simp, by simp, by simp, by simp, by simp⟩
  | true =>
    simp only [hmf, if_true]
    cases hex : w.modelFileExists with
    | false =>
      simp only [hex, Bool.false_eq_true, if_false]
      exact ⟨[DlEvent.mkdir m.local_dir,
              DlEvent.checkExists (m.local_dir ++ "/" ++ m.model_file.getD "")],
             rfl, by simp, by simp, by simp, by simp, by simp⟩
    | true =>
      have hsk : w.skipAnswer = false := by
        simp [skipTaken, hmf, hex] at h
        exact h
      simp only [hex, if_true, hsk, Bool.false_eq_true, if_false]
      exact ⟨[DlEvent.mkdir m.local_dir,
              DlEvent.checkExists (m.local_dir ++ "/" ++ m.model_file.getD ""),
              DlEvent.askSkip],
             rfl, by simp, by simp, by simp, by simp, by simp⟩

/-- dlAfterSkip when the logs directory is absent: the open of the log
file raises; no process is spawned. -/
theorem dlAfterSkip_noLogs (nv : String) (m : ModelDesc) (token : Option String)
    (w : DlWorld) (pre : List DlEvent) (h : w.logsDirExists = false) :
    dlAfterSkip nv m token w pre =
      { ret := none, events := pre ++ [DlEvent.openLog (logFilePath nv)] } := by
  unfold dlAfterSkip
  simp [h]

/-- dlAfterSkip when the polling loop ends in a kill. -/
theorem dlAfterSkip_killed (nv : String) (m : ModelDesc) (token : Option String)
    (w : DlWorld) (pre : List DlEvent) (h : w.logsDirExists = true)
    (hk : downloadLoop w.fetchPolls 0 0 = LoopOut.killed) :
    dlAfterSkip nv m token w pre =
      { ret := some false,
        events := pre ++ [DlEvent.openLog (logFilePath nv), DlEvent.spawn, DlEvent.kill] } := by
  unfold dlAfterSkip
  simp [h, hk]

/-- dlAfterSkip when the fetch process exits on its own. -/
theorem dlAfterSkip_exited (nv : String) (m : ModelDesc) (token : Option String)
    (w : DlWorld) (pre : List DlEvent) (h : w.logsDirExists = true)
    (he : downloadLoop w.fetchPolls 0 0 = LoopOut.exited) :
    dlAfterSkip nv m token w pre =
      { ret := some (w.fetchExitCode == 0),
        events := pre ++ [DlEvent.openLog (logFilePath nv), DlEvent.spawn] } := by
  unfold dlAfterSkip
  simp [h, he]

/-- A successful association-list lookup returns one of the stored
values. -/
theorem lookup_mem_values {α β : Type} [BEq α] (a : α) (b : β) :
    ∀ l : List (α × β), l.lookup a = some b → b ∈ l.map Prod.snd := by
  intro l
  induction l with
  | nil => intro h; simp [List.lookup] at h
  | cons kv rest ih =>
    intro h
    rw [List.lookup] at h
    cases hkv : a == kv.1 with
    | true =>
      rw [hkv] at h
      simp at h
      simp [h]
    | false =>
      rw [hkv] at h
      simp only [List.map_cons, List.mem_cons]
      exact Or.inr (ih h)

/-- Appending different suffixes to the same string gives different
strings. -/
theorem string_append_ne (a b c : String) (h : b.data ≠ c.data) :
    a ++ b ≠ a ++ c := by
  intro he
  apply h
  have hd : a.data ++ b.data = a.data ++ c.data := congrArg String.data he
  exact List.append_cancel_left hd

/-- No registered destination directory coincides with the logs
directory, for any NETWORK_VOLUME value. -/
theorem registry_local_dir_ne_logs (nv key : String) (m : ModelDesc)
    (hm : lookupModel nv key = some m) : m.local_dir ≠ logsDirPath nv := by
  have hmem := lookup_mem_values key m (MODELS nv) hm
  simp only [ MODELS, List.map_cons, List.map_nil, List.mem_cons, List.not_mem_nil,
    or_false] at hmem
  rcases hmem with h | h | h | h | h | h | h <;> subst h <;>
    exact string_append_ne nv _ _ (by decide)

/-! ## Claim theorems -/

/-- C1: for every download attempt in which the fetch process does not
exit before the ceiling, once the elapsed-time counter reaches 10800
seconds (3 hours) download_model kills the fetch process and returns
False; the loop always terminates and exactly one fetch process is
spawned (no retry). -/
theorem C1_timeout_kill (nv : String) (m : ModelDesc) (token : Option String) (w : DlWorld)
    (hskip : skipTaken m w = false)
    (hlog : w.logsDirExists = true)
    (hpoll : w.fetchPolls = none ∨ ∃ n, w.fetchPolls = some n ∧ 3600 ≤ n) :
    (download_model nv m token w).ret = some false
    ∧ DlEvent.kill ∈ (download_model nv m token w).events
    ∧ (download_model nv m token w).events.count DlEvent.spawn = 1 := by
  obtain ⟨pre, heq, hs, _, _, _, _⟩ := download_model_not_skipped nv m token w hskip
  have hkilled : downloadLoop w.fetchPolls 0 0 = LoopOut.killed := by
    rcases hpoll with h | ⟨n, hn, hge⟩
    · rw [h]; exact downloadLoop_none
    · rw [hn]; exact downloadLoop_late n hge
  rw [heq, dlAfterSkip_killed nv m token w pre hlog hkilled]
  refine ⟨rfl, by simp, ?_⟩
  have h0 : pre.count DlEvent.spawn = 0 := List.count_eq_zero.mpr hs
  rw [List.count_append, h0]
  rfl

def dlTimeoutWorld : DlWorld :=
  { modelFileExists := false, skipAnswer := false, logsDirExists := true,
    fetchPolls := none, fetchExitCode := 0 }

theorem C1_timeout_kill_witness :
    skipTaken (fluxModel "/workspace") dlTimeoutWorld = false
    ∧ dlTimeoutWorld.logsDirExists = true
    ∧ ((download_model "/workspace" (fluxModel "/workspace") none dlTimeoutWorld).ret = some false
       ∧ DlEvent.kill ∈ (download_model "/workspace" (fluxModel "/workspace") none dlTimeoutWorld).events
       ∧ (download_model "/workspace" (fluxModel "/workspace") none dlTimeoutWorld).events.count
           DlEvent.spawn = 1) :=
  ⟨by decide, rfl,
   C1_timeout_kill "/workspace" (fluxModel "/workspace") none dlTimeoutWorld
     (by decide) rfl (Or.inl rfl)⟩

/-- C2: for every download attempt in which the fetch process exits on
its own (first successful poll strictly before the 3600th tick),
download_model returns True exactly when the exit code is zero and
False for any non-zero exit code. -/
theorem C2_exit_code (nv : String) (m : ModelDesc) (token : Option String) (w : DlWorld)
    (n : Nat) (hskip : skipTaken m w = false) (hlog : w.logsDirExists = true)
    (hn : w.fetchPolls = some n) (hlt : n < 3600) :
    (download_model nv m token w).ret = some (w.fetchExitCode == 0)
    ∧ (w.fetchExitCode ≠ 0 → (download_model nv m token w).ret = some false)
    ∧ (w.fetchExitCode = 0 → (download_model nv m token w).ret = some true) := by
  obtain ⟨pre, heq, _, _, _, _, _⟩ := download_model_not_skipped nv m token w hskip
  have hex : downloadLoop w.fetchPolls 0 0 = LoopOut.exited := by
    rw [hn]; exact downloadLoop_early n hlt
  rw [heq, dlAfterSkip_exited nv m token w pre hlog hex]
  refine ⟨rfl, ?_, ?_⟩
  · intro h
    have hb : (w.fetchExitCode == 0) = false := beq_eq_false_iff_ne.mpr h
    simp only [hb]
  · intro h
    simp [h]

def dlFailWorld : DlWorld :=
  { modelFileExists := false, skipAnswer := false, logsDirExists := true,
    fetchPolls := some 5, fetchExitCode := 7 }

theorem C2_exit_code_witness :
    skipTaken (fluxModel "/workspace") dlFailWorld = false
    ∧ dlFailWorld.logsDirExists = true
    ∧ dlFailWorld.fetchPolls = some 5 ∧ (5 : Nat) < 3600
    ∧ ((download_model "/workspace" (fluxModel "/workspace") none dlFailWorld).ret
         = some (dlFailWorld.fetchExitCode == 0)
       ∧ (dlFailWorld.fetchExitCode ≠ 0 →
           (download_model "/workspace" (fluxModel "/workspace") none dlFailWorld).ret = some false)
       ∧ (dlFailWorld.fetchExitCode = 0 →
           (download_model "/workspace" (fluxModel "/workspace") none dlFailWorld).ret = some true)) :=
  ⟨by decide, rfl, rfl, by decide,
   C2_exit_code "/workspace" (fluxModel "/workspace") none dlFailWorld 5
     (by decide) rfl rfl (by decide)⟩

/-- C3: for a descriptor that declares an expected artifact filename,
if the file already exists the user is asked to skip, and accepting the
skip makes download_model return True without spawning any fetch
process. -/
theorem C3_skip_existing (nv : String) (m : ModelDesc) (token : Option String) (w : DlWorld)
    (f : String) (hm : m.model_file = some f) (hf : f ≠ "")
    (hex : w.modelFileExists = true) (hsk : w.skipAnswer = true) :
    (download_model nv m token w).ret = some true
    ∧ DlEvent.askSkip ∈ (download_model nv m token w).events
    ∧ DlEvent.spawn ∉ (download_model nv m token w).events := by
  have ht : optStrTruthy m.model_file = true := by
    rw [hm]; simp [optStrTruthy, hf]
  simp [download_model, ht, hex, hsk]

def dlSkipWorld : DlWorld :=
  { modelFileExists := true, skipAnswer := true, logsDirExists := true,
    fetchPolls := some 0, fetchExitCode := 0 }

theorem C3_skip_existing_witness :
    (sdxlModel "/workspace").model_file = some "sdXL_v10VAEFix.safetensors"
    ∧ "sdXL_v10VAEFix.safetensors" ≠ ""
    ∧ dlSkipWorld.modelFileExists = true
    ∧ dlSkipWorld.skipAnswer = true
    ∧ ((download_model "/workspace" (sdxlModel "/workspace") none dlSkipWorld).ret = some true
       ∧ DlEvent.askSkip ∈ (download_model "/workspace" (sdxlModel "/workspace") none dlSkipWorld).events
       ∧ DlEvent.spawn ∉ (download_model "/workspace" (sdxlModel "/workspace") none dlSkipWorld).events) :=
  ⟨rfl, by decide, rfl, rfl,
   C3_skip_existing "/workspace" (sdxlModel "/workspace") none dlSkipWorld
     "sdXL_v10VAEFix.safetensors" rfl (by decide) rfl rfl⟩

/-- Whatever happens after the spawn point, the events of dlAfterSkip
extend the given prefix. -/
theorem dlAfterSkip_events_extend (nv : String) (m : ModelDesc) (token : Option String)
    (w : DlWorld) (pre : List DlEvent) :
    ∃ tail, (dlAfterSkip nv m token w pre).events = pre ++ tail := by
  cases hl : w.logsDirExists
  · exact ⟨[DlEvent.openLog (logFilePath nv)],
      by rw [dlAfterSkip_noLogs nv m token w pre hl]⟩
  · cases hdl : downloadLoop w.fetchPolls 0 0
    · exact ⟨[DlEvent.openLog (logFilePath nv), DlEvent.spawn],
        by rw [dlAfterSkip_exited nv m token w pre hl hdl]⟩
    · exact ⟨[DlEvent.openLog (logFilePath nv), DlEvent.spawn, DlEvent.kill],
        by rw [dlAfterSkip_killed nv m token w pre hl hdl]⟩

def isCheckExists : DlEvent → Bool
  | DlEvent.checkExists _ => true
  | _ => false

def dlNoSkipWorld : DlWorld :=
  { modelFileExists := false, skipAnswer := false, logsDirExists := true,
    fetchPolls := some 0, fetchExitCode := 0 }

/-- C4 (counterexample): for the registry entry z_image_turbo, which
declares no expected artifact filename, download_model spawns a fetch
process without ever evaluating the artifact-existence check. -/
theorem C4_counterexample :
    lookupModel "/workspace" "z_image_turbo" = some (zImageTurboModel "/workspace")
    ∧ DlEvent.spawn ∈
        (download_model "/workspace" (zImageTurboModel "/workspace") none dlNoSkipWorld).events
    ∧ (download_model "/workspace" (zImageTurboModel "/workspace") none dlNoSkipWorld).events.filter
        isCheckExists = [] := by
  have hdl : downloadLoop (some 0) 0 0 = LoopOut.exited := downloadLoop_early 0 (by omega)
  refine ⟨rfl, ?_, ?_⟩ <;>
    simp [download_model, dlAfterSkip, optStrTruthy, zImageTurboModel, dlNoSkipWorld, hdl,
      isCheckExists]

/-- C4 (amended): for every model descriptor that declares a non-empty
expected artifact filename, the artifact-existence check on the
destination path is evaluated right after the destination mkdir and
hence before any fetch process can be spawned; z_image_turbo declares
none and gets no such check. -/
theorem C4_amended_check_before_spawn (nv : String) (m : ModelDesc) (token : Option String)
    (w : DlWorld) (h : optStrTruthy m.model_file = true) :
    ∃ tail, (download_model nv m token w).events
        = DlEvent.mkdir m.local_dir
          :: DlEvent.checkExists (m.local_dir ++ "/" ++ m.model_file.getD "") :: tail := by
  unfold download_model
  simp only [h, if_true]
  cases hex : w.modelFileExists with
  | true =>
    simp only [hex, if_true]
    cases hsk : w.skipAnswer with
    | true =>
      simp only [hsk, if_true]
      exact ⟨[DlEvent.askSkip], by simp⟩
    | false =>
      simp only [hsk, Bool.false_eq_true, if_false]
      obtain ⟨tail, ht⟩ := dlAfterSkip_events_extend nv m token w
        [DlEvent.mkdir m.local_dir,
         DlEvent.checkExists (m.local_dir ++ "/" ++ m.model_file.getD ""),
         DlEvent.askSkip]
      exact ⟨DlEvent.askSkip :: tail,
        by simp only [List.singleton_append, List.cons_append, List.nil_append]; rw [ht]; simp⟩
  | false =>
    simp only [hex, Bool.false_eq_true, if_false]
    obtain ⟨tail, ht⟩ := dlAfterSkip_events_extend nv m token w
      [DlEvent.mkdir m.local_dir,
       DlEvent.checkExists (m.local_dir ++ "/" ++ m.model_file.getD "")]
    exact ⟨tail, by simp only [List.singleton_append, List.cons_append, List.nil_append]; rw [ht]; simp⟩

theorem C4_amended_check_before_spawn_witness :
    optStrTruthy (sdxlModel "/workspace").model_file = true
    ∧ (∃ tail, (download_model "/workspace" (sdxlModel "/workspace") none dlNoSkipWorld).events
        = DlEvent.mkdir (sdxlModel "/workspace").local_dir
          :: DlEvent.checkExists ((sdxlModel "/workspace").local_dir ++ "/"
               ++ (sdxlModel "/workspace").model_file.getD "") :: tail) :=
  ⟨by decide,
   C4_amended_check_before_spawn "/workspace" (sdxlModel "/workspace") none dlNoSkipWorld
     (by decide)⟩

/-- C5: launch_training runs the training process synchronously and
then prints the completion banner; the outcome is the same for every
exit status of the training subprocess, and no exit status makes it
report failure. -/
theorem C5_banner_regardless (nv key : String) (m : ModelDesc) (fs : FS) (c : Int)
    (hm : lookupModel nv key = some m)
    (hdir : fs.pathExists (diffusionPipeDir nv) = true)
    (hscript : optStrTruthy m.training_script = true →
      fs.pathExists (scriptPath nv (m.training_script.getD "")) = true) :
    (∀ c2 : Int, launch_training nv key fs c2 = launch_training nv key fs c)
    ∧ ∃ lo, launch_training nv key fs c = some lo
        ∧ lo.banner = true ∧ lo.exitCode = none
        ∧ (lo.ranScript.isSome = true ∨ lo.ranInline = true) := by
  refine ⟨fun c2 => rfl, ?_⟩
  unfold launch_training
  rw [hm]
  simp only [hdir, if_true]
  cases ht : optStrTruthy m.training_script with
  | true =>
    simp only [ht, if_true]
    have hp := hscript ht
    simp only [hp, if_true]
    exact ⟨_, rfl, rfl, rfl, Or.inl rfl⟩
  | false =>
    simp only [ht, Bool.false_eq_true, if_false]
    exact ⟨_, rfl, rfl, rfl, Or.inr rfl⟩

def fsAll : FS := { pathExists := fun _ => true, listdir := fun _ => [] }

theorem C5_banner_regardless_witness :
    lookupModel "/workspace" "sdxl" = some (sdxlModel "/workspace")
    ∧ fsAll.pathExists (diffusionPipeDir "/workspace") = true
    ∧ ((∀ c2 : Int, launch_training "/workspace" "sdxl" fsAll c2
          = launch_training "/workspace" "sdxl" fsAll 5)
       ∧ ∃ lo, launch_training "/workspace" "sdxl" fsAll 5 = some lo
           ∧ lo.banner = true ∧ lo.exitCode = none
           ∧ (lo.ranScript.isSome = true ∨ lo.ranInline = true)) :=
  ⟨rfl, rfl,
   C5_banner_regardless "/workspace" "sdxl" (sdxlModel "/workspace") fsAll 5 rfl rfl
     (fun _ => rfl)⟩

/-- C6: for a descriptor in external-script mode whose script file is
absent, launch_training exits with code 1, runs nothing, and never
falls back to the inline launch path. -/
theorem C6_missing_script (nv key : String) (m : ModelDesc) (fs : FS) (c : Int)
    (hm : lookupModel nv key = some m)
    (hdir : fs.pathExists (diffusionPipeDir nv) = true)
    (ht : optStrTruthy m.training_script = true)
    (habs : fs.pathExists (scriptPath nv (m.training_script.getD "")) = false) :
    ∃ lo, launch_training nv key fs c = some lo
      ∧ lo.exitCode = some 1 ∧ lo.ranInline = false ∧ lo.ranScript = none
      ∧ lo.banner = false := by
  unfold launch_training
  rw [hm]
  simp only [hdir, if_true, ht, habs, Bool.false_eq_true, if_false]
  exact ⟨_, rfl, rfl, rfl, rfl, rfl⟩

/-- A filesystem in which everything exists except the sdxl training
script. -/
def fsNoSdxlScript : FS :=
  { pathExists := fun p => !(p == scriptPath "/workspace" "start_sdxl_training.sh"),
    listdir := fun _ => [] }

theorem C6_missing_script_witness :
    lookupModel "/workspace" "sdxl" = some (sdxlModel "/workspace")
    ∧ fsNoSdxlScript.pathExists (diffusionPipeDir "/workspace") = true
    ∧ optStrTruthy (sdxlModel "/workspace").training_script = true
    ∧ fsNoSdxlScript.pathExists
        (scriptPath "/workspace" ((sdxlModel "/workspace").training_script.getD "")) = false
    ∧ ∃ lo, launch_training "/workspace" "sdxl" fsNoSdxlScript 0 = some lo
        ∧ lo.exitCode = some 1 ∧ lo.ranInline = false ∧ lo.ranScript = none
        ∧ lo.banner = false :=
  ⟨rfl, by decide, by decide, by decide,
   C6_missing_script "/workspace" "sdxl" (sdxlModel "/workspace") fsNoSdxlScript 0 rfl
     (by decide) (by decide) (by decide)⟩

theorem scanFolder_checked (fs : FS) (dir : String) (mf : String → Bool)
    (mm em : String) : (scanFolder fs dir mf mm em).checked = [dir] := by
  simp only [scanFolder]
  split_ifs <;> rfl

theorem scanFolder_listed (fs : FS) (dir : String) (mf : String → Bool)
    (mm em : String) :
    (scanFolder fs dir mf mm em).listed = (if fs.pathExists dir then [dir] else []) := by
  simp only [scanFolder]
  split_ifs <;> rfl

/-- C9: each caption mode makes validate_dataset inspect exactly the
directory set it implies (images: image dir; videos: video dir; both:
both; skip: none, trivially valid with no issues), directories are only
listed when they exist, and file matching is by case-insensitive
extension (images jpg/jpeg/png, videos mp4/avi/mov). -/
theorem C9_validator_scans (nv : String) (fs : FS) (cont : Bool) :
    ((validate_dataset nv "images" fs cont).checked = [imageDir nv]
     ∧ (validate_dataset nv "images" fs cont).listed
         = (if fs.pathExists (imageDir nv) then [imageDir nv] else []))
    ∧ ((validate_dataset nv "videos" fs cont).checked = [videoDir nv]
       ∧ (validate_dataset nv "videos" fs cont).listed
           = (if fs.pathExists (videoDir nv) then [videoDir nv] else []))
    ∧ ((validate_dataset nv "both" fs cont).checked = [imageDir nv, videoDir nv]
       ∧ (validate_dataset nv "both" fs cont).listed
           = (if fs.pathExists (imageDir nv) then [imageDir nv] else [])
             ++ (if fs.pathExists (videoDir nv) then [videoDir nv] else []))
    ∧ ((validate_dataset nv "skip" fs cont).checked = []
       ∧ (validate_dataset nv "skip" fs cont).listed = []
       ∧ (validate_dataset nv "skip" fs cont).issues = []
       ∧ (validate_dataset nv "skip" fs cont).exitCode = none
       ∧ (validate_dataset nv "skip" fs cont).returned = true)
    ∧ (∀ f, isImageFile f
         = List.any ["jpg", "jpeg", "png"] (fun e => f.toLower.endsWith ("." ++ e)))
    ∧ (∀ f, isVideoFile f
         = List.any ["mp4", "avi", "mov"] (fun e => f.toLower.endsWith ("." ++ e))) := by
  refine ⟨⟨?_, ?_⟩, ⟨?_, ?_⟩, ⟨?_, ?_⟩, ⟨rfl, rfl, rfl, rfl, rfl⟩, ?_, ?_⟩
  · simp [validate_dataset, scanFolder_checked]
  · simp [validate_dataset, scanFolder_listed]
  · simp [validate_dataset, scanFolder_checked]
  · simp [validate_dataset, scanFolder_listed]
  · simp [validate_dataset, scanFolder_checked]
  · simp [validate_dataset, scanFolder_listed]
  · intro f
    have e1 : ("." ++ "jpg" : String) = ".jpg" := rfl
    have e2 : ("." ++ "jpeg" : String) = ".jpeg" := rfl
    have e3 : ("." ++ "png" : String) = ".png" := rfl
    simp only [isImageFile, List.any_cons, List.any_nil, Bool.or_false, Bool.or_assoc, e1, e2, e3]
  · intro f
    have e1 : ("." ++ "mp4" : String) = ".mp4" := rfl
    have e2 : ("." ++ "avi" : String) = ".avi" := rfl
    have e3 : ("." ++ "mov" : String) = ".mov" := rfl
    simp only [isVideoFile, List.any_cons, List.any_nil, Bool.or_false, Bool.or_assoc, e1, e2, e3]

/-- C8: for a model that requires a credential, a pre-set environment
credential is accepted only when non-empty and not the placeholder
token_here; otherwise the user is prompted, and an empty entered token
terminates the process with exit code 1 before any download attempt. -/
theorem C8_credential (nv : String) (w : MainWorld) (m : ModelDesc)
    (hreq : m.requires_token = true) :
    (∀ t, w.envToken = some t → t ≠ "" → t ≠ "token_here" →
        get_api_token m w.envToken w.tokenInput = TokenResult.fromEnv t)
    ∧ (tokenTruthySet w.envToken = false → w.tokenInput ≠ "" →
        get_api_token m w.envToken w.tokenInput = TokenResult.fromPrompt w.tokenInput)
    ∧ (tokenTruthySet w.envToken = false → w.tokenInput = "" →
        get_api_token m w.envToken w.tokenInput = TokenResult.exitEmpty)
    ∧ (w.evtMenu = Evt.ok → lookupModel nv w.menuChoice = some m → w.evtToken = Evt.ok →
        tokenTruthySet w.envToken = false → w.tokenInput = "" →
        mainExit nv w = 1 ∧ (mainRun nv w).dlSpawned = false) := by
  refine ⟨?_, ?_, ?_, ?_⟩
  · intro t ht hne hph
    have h1 : (t == "") = false := beq_eq_false_iff_ne.mpr hne
    have h2 : (t == "token_here") = false := beq_eq_false_iff_ne.mpr hph
    simp [get_api_token, hreq, ht, tokenTruthySet, h1, h2]
  · intro henv hne
    have h1 : (w.tokenInput == "") = false := beq_eq_false_iff_ne.mpr hne
    simp [get_api_token, hreq, henv, h1]
  · intro henv hin
    simp [get_api_token, hreq, henv, hin]
  · intro h1 h2 h3 henv hin
    have hg : get_api_token m w.envToken w.tokenInput = TokenResult.exitEmpty := by
      simp [get_api_token, hreq, henv, hin]
    have hrun : mainRun nv w =
        { result := BodyResult.exited 1, dlSpawned := false, launched := false } := by
      simp only [mainRun, h1, h2, mainFromToken, h3, hg]
    constructor
    · simp [mainExit, hrun]
    · rw [hrun]

def fluxEmptyTokenWorld : MainWorld :=
  { evtMenu := Evt.ok, menuChoice := "flux", evtToken := Evt.ok, envToken := none,
    tokenInput := "", evtCaption := Evt.ok, captionMode := "skip", evtValidate := Evt.ok,
    fs := fsAll, valContinue := true, evtConfirm := Evt.ok, confirmStart := true,
    evtDownload := Evt.ok, dlw := dlSkipWorld, evtLaunch := Evt.ok, trainExitCode := 0 }

theorem C8_credential_witness :
    (fluxModel "/workspace").requires_token = true
    ∧ ((∀ t, fluxEmptyTokenWorld.envToken = some t → t ≠ "" → t ≠ "token_here" →
          get_api_token (fluxModel "/workspace") fluxEmptyTokenWorld.envToken
            fluxEmptyTokenWorld.tokenInput = TokenResult.fromEnv t)
       ∧ (tokenTruthySet fluxEmptyTokenWorld.envToken = false →
            fluxEmptyTokenWorld.tokenInput ≠ "" →
            get_api_token (fluxModel "/workspace") fluxEmptyTokenWorld.envToken
              fluxEmptyTokenWorld.tokenInput = TokenResult.fromPrompt fluxEmptyTokenWorld.tokenInput)
       ∧ (tokenTruthySet fluxEmptyTokenWorld.envToken = false →
            fluxEmptyTokenWorld.tokenInput = "" →
            get_api_token (fluxModel "/workspace") fluxEmptyTokenWorld.envToken
              fluxEmptyTokenWorld.tokenInput = TokenResult.exitEmpty)
       ∧ (fluxEmptyTokenWorld.evtMenu = Evt.ok →
            lookupModel "/workspace" fluxEmptyTokenWorld.menuChoice = some (fluxModel "/workspace") →
            fluxEmptyTokenWorld.evtToken = Evt.ok →
            tokenTruthySet fluxEmptyTokenWorld.envToken = false →
            fluxEmptyTokenWorld.tokenInput = "" →
            mainExit "/workspace" fluxEmptyTokenWorld = 1
            ∧ (mainRun "/workspace" fluxEmptyTokenWorld).dlSpawned = false)) :=
  ⟨rfl, C8_credential "/workspace" fluxEmptyTokenWorld (fluxModel "/workspace") rfl⟩

theorem mainRun_eq_fromToken (nv : String) (w : MainWorld) (m : ModelDesc)
    (h1 : w.evtMenu = Evt.ok) (h2 : lookupModel nv w.menuChoice = some m) :
    mainRun nv w = mainFromToken nv w m := by
  simp only [mainRun, h1, h2]

theorem mainFromToken_eq_fromCaption (nv : String) (w : MainWorld) (m : ModelDesc)
    (tr : TokenResult) (h3 : w.evtToken = Evt.ok)
    (htr : get_api_token m w.envToken w.tokenInput = tr)
    (hne : tr ≠ TokenResult.exitEmpty) :
    mainFromToken nv w m = mainFromCaption nv w m (tokenValue tr) := by
  cases tr with
  | exitEmpty => exact absurd rfl hne
  | noToken => simp only [mainFromToken, h3, htr]
  | fromEnv t => simp only [mainFromToken, h3, htr]
  | fromPrompt t => simp only [mainFromToken, h3, htr]

theorem mainFromCaption_eq (nv : String) (w : MainWorld) (m : ModelDesc)
    (tok : Option String) (h : w.evtCaption = Evt.ok) :
    mainFromCaption nv w m tok = mainFromValidate nv w m tok := by
  simp only [mainFromCaption, h]

theorem mainFromValidate_eq (nv : String) (w : MainWorld) (m : ModelDesc)
    (tok : Option String) (h : w.evtValidate = Evt.ok)
    (hv : (validate_dataset nv w.captionMode w.fs w.valContinue).exitCode = none) :
    mainFromValidate nv w m tok = mainFromConfirm nv w m tok := by
  simp only [mainFromValidate, h, hv]

theorem mainFromConfirm_eq (nv : String) (w : MainWorld) (m : ModelDesc)
    (tok : Option String) (h : w.evtConfirm = Evt.ok) (hc : w.confirmStart = true) :
    mainFromConfirm nv w m tok = mainFromDownload nv w m tok := by
  simp only [mainFromConfirm, h, hc, if_true]

theorem mainFromDownload_eq (nv : String) (w : MainWorld) (m : ModelDesc)
    (tok : Option String) (h : w.evtDownload = Evt.ok)
    (hd : (download_model nv m tok w.dlw).ret = some true) :
    mainFromDownload nv w m tok
      = mainFromLaunch nv w ((download_model nv m tok w.dlw).events.contains DlEvent.spawn) := by
  simp only [mainFromDownload, h, hd]

/-- C7: user-initiated cancellation (a keyboard interrupt at any
reached step, declining the dataset-validation continue gate, or
declining the start-training confirmation) exits with code 0, while an
unexpected exception at any reached step is caught at the top level and
exits with code 1. -/
theorem C7_exit_codes (nv : String) (w : MainWorld) :
    ((mainRun nv w).result = BodyResult.interrupted → mainExit nv w = 0)
    ∧ ((mainRun nv w).result = BodyResult.raised → mainExit nv w = 1)
    ∧ (w.evtMenu = Evt.interrupt → mainExit nv w = 0)
    ∧ (w.evtMenu = Evt.exn → mainExit nv w = 1)
    ∧ ∀ m : ModelDesc, w.evtMenu = Evt.ok → lookupModel nv w.menuChoice = some m →
        ((w.evtToken = Evt.interrupt → mainExit nv w = 0)
         ∧ (w.evtToken = Evt.exn → mainExit nv w = 1)
         ∧ (w.evtToken = Evt.ok →
            get_api_token m w.envToken w.tokenInput ≠ TokenResult.exitEmpty →
             ((w.evtCaption = Evt.interrupt → mainExit nv w = 0)
              ∧ (w.evtCaption = Evt.exn → mainExit nv w = 1)
              ∧ (w.evtCaption = Evt.ok →
                  ((w.evtValidate = Evt.interrupt → mainExit nv w = 0)
                   ∧ (w.evtValidate = Evt.exn → mainExit nv w = 1)
                   ∧ (w.evtValidate = Evt.ok →
                       (((validate_dataset nv w.captionMode w.fs w.valContinue).exitCode
                           = some 0 → mainExit nv w = 0)
                        ∧ ((validate_dataset nv w.captionMode w.fs w.valContinue).exitCode
                             = none →
                            ((w.evtConfirm = Evt.interrupt → mainExit nv w = 0)
                             ∧ (w.evtConfirm = Evt.exn → mainExit nv w = 1)
                             ∧ (w.evtConfirm = Evt.ok →
                                 ((w.confirmStart = false → mainExit nv w = 0)
                                  ∧ (w.confirmStart = true →
                                      ((w.evtDownload = Evt.interrupt → mainExit nv w = 0)
                                       ∧ (w.evtDownload = Evt.exn → mainExit nv w = 1)
                                       ∧ (w.evtDownload = Evt.ok →
                                          (download_model nv m
                                            (tokenValue (get_api_token m w.envToken w.tokenInput))
                                            w.dlw).ret = some true →
                                           ((w.evtLaunch = Evt.interrupt → mainExit nv w = 0)
                                            ∧ (w.evtLaunch = Evt.exn →
                                                mainExit nv w = 1)))))))))))))))) := by
  refine ⟨?_, ?_, ?_, ?_, ?_⟩
  · intro h; simp [mainExit, h]
  · intro h; simp [mainExit, h]
  · intro h; simp [mainExit, mainRun, h]
  · intro h; simp [mainExit, mainRun, h]
  intro m h1 h2
  have hrunT : mainRun nv w = mainFromToken nv w m := mainRun_eq_fromToken nv w m h1 h2
  refine ⟨?_, ?_, ?_⟩
  · intro h; simp [mainExit, hrunT, mainFromToken, h]
  · intro h; simp [mainExit, hrunT, mainFromToken, h]
  intro h3 hne
  have hrunC : mainRun nv w
      = mainFromCaption nv w m (tokenValue (get_api_token m w.envToken w.tokenInput)) :=
    hrunT.trans (mainFromToken_eq_fromCaption nv w m _ h3 rfl hne)
  refine ⟨?_, ?_, ?_⟩
  · intro h; simp [mainExit, hrunC, mainFromCaption, h]
  · intro h; simp [mainExit, hrunC, mainFromCaption, h]
  intro h5
  have hrunV : mainRun nv w
      = mainFromValidate nv w m (tokenValue (get_api_token m w.envToken w.tokenInput)) :=
    hrunC.trans (mainFromCaption_eq nv w m _ h5)
  refine ⟨?_, ?_, ?_⟩
  · intro h; simp [mainExit, hrunV, mainFromValidate, h]
  · intro h; simp [mainExit, hrunV, mainFromValidate, h]
  intro h6
  refine ⟨?_, ?_⟩
  · intro hv0; simp [mainExit, hrunV, mainFromValidate, h6, hv0]
  intro hv
  have hrunCf : mainRun nv w
      = mainFromConfirm nv w m (tokenValue (get_api_token m w.envToken w.tokenInput)) :=
    hrunV.trans (mainFromValidate_eq nv w m _ h6 hv)
  refine ⟨?_, ?_, ?_⟩
  · intro h; simp [mainExit, hrunCf, mainFromConfirm, h]
  · intro h; simp [mainExit, hrunCf, mainFromConfirm, h]
  intro h8
  refine ⟨?_, ?_⟩
  · intro hc; simp [mainExit, hrunCf, mainFromConfirm, h8, hc]
  intro h9
  have hrunD : mainRun nv w
      = mainFromDownload nv w m (tokenValue (get_api_token m w.envToken w.tokenInput)) :=
    hrunCf.trans (mainFromConfirm_eq nv w m _ h8 h9)
  refine ⟨?_, ?_, ?_⟩
  · intro h; simp [mainExit, hrunD, mainFromDownload, h]
  · intro h; simp [mainExit, hrunD, mainFromDownload, h]
  intro h10 hd
  have hrunL : mainRun nv w
      = mainFromLaunch nv w
          ((download_model nv m (tokenValue (get_api_token m w.envToken w.tokenInput))
             w.dlw).events.contains DlEvent.spawn) :=
    hrunD.trans (mainFromDownload_eq nv w m _ h10 hd)
  refine ⟨?_, ?_⟩
  · intro h; simp [mainExit, hrunL, mainFromLaunch, h]
  · intro h; simp [mainExit, hrunL, mainFromLaunch, h]

def interruptWorld : MainWorld :=
  { fluxEmptyTokenWorld with evtMenu := Evt.interrupt }

def exnWorld : MainWorld :=
  { fluxEmptyTokenWorld with evtMenu := Evt.exn }

def declineWorld : MainWorld :=
  { evtMenu := Evt.ok, menuChoice := "sdxl", evtToken := Evt.ok, envToken := none,
    tokenInput := "", evtCaption := Evt.ok, captionMode := "skip", evtValidate := Evt.ok,
    fs := fsAll, valContinue := true, evtConfirm := Evt.ok, confirmStart := false,
    evtDownload := Evt.ok, dlw := dlSkipWorld, evtLaunch := Evt.ok, trainExitCode := 0 }

theorem C7_exit_codes_witness :
    interruptWorld.evtMenu = Evt.interrupt
    ∧ exnWorld.evtMenu = Evt.exn
    ∧ declineWorld.confirmStart = false
    ∧ mainExit "/workspace" interruptWorld = 0
    ∧ mainExit "/workspace" exnWorld = 1
    ∧ mainExit "/workspace" declineWorld = 0 := by
  refine ⟨rfl, rfl, rfl,
    (C7_exit_codes "/workspace" interruptWorld).2.2.1 rfl,
    (C7_exit_codes "/workspace" exnWorld).2.2.2.1 rfl, ?_⟩
  have h := (C7_exit_codes "/workspace" declineWorld).2.2.2.2 (sdxlModel "/workspace") rfl rfl
  have h2 := h.2.2 rfl (by decide)
  have h3 := h2.2.2 rfl
  have h4 := h3.2.2 rfl
  have h5 := h4.2 rfl
  have h6 := h5.2.2 rfl
  exact h6.1 rfl

/-- C10: when the logs directory is absent and the skip short-circuit
is not taken, download_model fails while opening the log file before
any fetch process is spawned (ret = none, i.e. the exception escapes);
the only directory it creates is the destination directory, which is
never the logs directory for a registry model; and reaching the
download step in main with such a world ends the process with exit
code 1 and no spawned fetch process. -/
theorem C10_missing_logs_dir (nv key : String) (m : ModelDesc) (token : Option String)
    (w : DlWorld) (w2 : MainWorld)
    (hm : lookupModel nv key = some m)
    (hskip : skipTaken m w = false)
    (hlog : w.logsDirExists = false) :
    ((download_model nv m token w).ret = none
     ∧ DlEvent.spawn ∉ (download_model nv m token w).events
     ∧ DlEvent.openLog (logFilePath nv) ∈ (download_model nv m token w).events
     ∧ DlEvent.mkdir m.local_dir ∈ (download_model nv m token w).events
     ∧ (∀ p, DlEvent.mkdir p ∈ (download_model nv m token w).events → p = m.local_dir)
     ∧ m.local_dir ≠ logsDirPath nv)
    ∧ (w2.evtMenu = Evt.ok → w2.menuChoice = key → w2.evtToken = Evt.ok →
       get_api_token m w2.envToken w2.tokenInput ≠ TokenResult.exitEmpty →
       w2.evtCaption = Evt.ok → w2.evtValidate = Evt.ok →
       (validate_dataset nv w2.captionMode w2.fs w2.valContinue).exitCode = none →
       w2.evtConfirm = Evt.ok → w2.confirmStart = true → w2.evtDownload = Evt.ok →
       w2.dlw = w →
       mainExit nv w2 = 1 ∧ (mainRun nv w2).dlSpawned = false) := by
  have hgen : ∀ tok : Option String, (download_model nv m tok w).ret = none
      ∧ DlEvent.spawn ∉ (download_model nv m tok w).events
      ∧ ((download_model nv m tok w).events.contains DlEvent.spawn) = false
      ∧ DlEvent.openLog (logFilePath nv) ∈ (download_model nv m tok w).events
      ∧ DlEvent.mkdir m.local_dir ∈ (download_model nv m tok w).events
      ∧ (∀ p, DlEvent.mkdir p ∈ (download_model nv m tok w).events → p = m.local_dir) := by
    intro tok
    obtain ⟨pre, heq, hs, _, _, hmk, hmo⟩ := download_model_not_skipped nv m tok w hskip
    rw [heq, dlAfterSkip_noLogs nv m tok w pre hlog]
    refine ⟨rfl, by simp [hs], by simp [hs], by simp, by simp [hmk], ?_⟩
    intro p hp
    simp only [List.mem_append, List.mem_singleton] at hp
    rcases hp with hp | hp
    · exact hmo p hp
    · simp at hp
  constructor
  · obtain ⟨a, b, _, c, d, e⟩ := hgen token
    exact ⟨a, b, c, d, e, registry_local_dir_ne_logs nv key m hm⟩
  · intro g1 g2 g3 g4 g5 g6 g7 g8 g9 g10 g11
    have hm2 : lookupModel nv w2.menuChoice = some m := by rw [g2]; exact hm
    have hrun : mainRun nv w2
        = mainFromDownload nv w2 m
            (tokenValue (get_api_token m w2.envToken w2.tokenInput)) :=
      ((((mainRun_eq_fromToken nv w2 m g1 hm2).trans
          (mainFromToken_eq_fromCaption nv w2 m _ g3 rfl g4)).trans
          (mainFromCaption_eq nv w2 m _ g5)).trans
          (mainFromValidate_eq nv w2 m _ g6 g7)).trans
          (mainFromConfirm_eq nv w2 m _ g8 g9)
    obtain ⟨hret, _, hcontains, _, _, _⟩ :=
      hgen (tokenValue (get_api_token m w2.envToken w2.tokenInput))
    have hrun2 : mainRun nv w2 =
        { result := BodyResult.raised, dlSpawned := false, launched := false } := by
      rw [hrun]
      simp only [mainFromDownload, g10]
      rw [g11]
      simp only [hret, hcontains]
    constructor
    · simp [mainExit, hrun2]
    · rw [hrun2]

def dlNoLogsWorld : DlWorld :=
  { modelFileExists := false, skipAnswer := false, logsDirExists := false,
    fetchPolls := some 0, fetchExitCode := 0 }

def noLogsMainWorld : MainWorld :=
  { evtMenu := Evt.ok, menuChoice := "wan13", evtToken := Evt.ok, envToken := none,
    tokenInput := "", evtCaption := Evt.ok, captionMode := "skip", evtValidate := Evt.ok,
    fs := fsAll, valContinue := true, evtConfirm := Evt.ok, confirmStart := true,
    evtDownload := Evt.ok, dlw := dlNoLogsWorld, evtLaunch := Evt.ok, trainExitCode := 0 }

theorem C10_missing_logs_dir_witness :
    lookupModel "/workspace" "wan13" = some (wan13Model "/workspace")
    ∧ skipTaken (wan13Model "/workspace") dlNoLogsWorld = false
    ∧ dlNoLogsWorld.logsDirExists = false
    ∧ (download_model "/workspace" (wan13Model "/workspace") none dlNoLogsWorld).ret = none
    ∧ mainExit "/workspace" noLogsMainWorld = 1
    ∧ (mainRun "/workspace" noLogsMainWorld).dlSpawned = false := by
  have h := C10_missing_logs_dir "/workspace" "wan13" (wan13Model "/workspace") none
    dlNoLogsWorld noLogsMainWorld rfl (by decide) rfl
  have h2 := h.2 rfl rfl rfl (by decide) rfl rfl rfl rfl rfl rfl rfl
  exact ⟨rfl, by decide, rfl, h.1.1, h2.1, h2.2⟩
